import Mathlib

/-!
Shallow embedding of PyMEMENTO's gmx_util.py (the membrane-embedding utility
module).

Conventions used throughout:
- Python floats are idealised as exact rationals (atom positions, box values)
  or as reals (the compression schedule, which takes a real power).
- File-system effects are modelled by an association list from path strings to
  file models.  Python exceptions are modelled with Except; a raised exception
  carries the file system as it stood when the exception was raised, so that
  theorems can speak about on-disk state after a failure.
- External engine invocations (grompp, mdrun, make_ndx, genrestr) are
  collaborators: the model records the exact textual inputs handed to them
  and, for minimization, consumes outcomes from a synthetic driver list.
-/

set_option autoImplicit false

attribute [local semireducible] Rat.add Rat.mul Rat.sub Rat.inv Rat.ofScientific

/-- Decidable equality of Except values, by cases on both constructors. -/
instance exceptDecEq {ε α : Type} [DecidableEq ε] [DecidableEq α] :
    DecidableEq (Except ε α) := fun a b =>
  match a, b with
  | Except.ok x, Except.ok y =>
    match decEq x y with
    | isTrue h => isTrue (by rw [h])
    | isFalse h => isFalse (fun hh => h (Except.ok.inj hh))
  | Except.ok _, Except.error _ => isFalse (fun hh => Except.noConfusion hh)
  | Except.error _, Except.ok _ => isFalse (fun hh => Except.noConfusion hh)
  | Except.error x, Except.error y =>
    match decEq x y with
    | isTrue h => isTrue (by rw [h])
    | isFalse h => isFalse (fun hh => h (Except.error.inj hh))

/-- Kinds of Python exceptions raised by the modelled code paths.
fatalMinError models the ValueError that minimize raises for a non-overlap
minimization failure; valueError models other ValueErrors (failed float or
int conversion, failed list.index); driverExhausted is a modelling artifact
marking that the synthetic minimization driver ran out of scripted outcomes. -/
inductive PyErr where
  | valueError
  | indexError
  | fileNotFound
  | fatalMinError
  | driverExhausted
  deriving DecidableEq, Repr

/-- A 3-d position with exact coordinates (idealising a numpy float vector). -/
structure Vec3 where
  x : ℚ
  y : ℚ
  z : ℚ
  deriving DecidableEq, Repr

/-- Whitespace characters recognised by Python str.split(). -/
def isPyWs (c : Char) : Bool :=
  c == ' ' || c == '\t' || c == '\n' || c == '\r'

/-- Accumulating splitter behind pySplit: walk the characters, collecting the
current token in reverse in acc, and emit a token at each whitespace run. -/
def splitWsAux : List Char → List Char → List String
  | [], acc => if acc = [] then [] else [⟨acc.reverse⟩]
  | c :: cs, acc =>
    if isPyWs c then
      if acc = [] then splitWsAux cs [] else ⟨acc.reverse⟩ :: splitWsAux cs []
    else splitWsAux cs (c :: acc)

/-- Model of Python str.split() with no argument: split on whitespace runs,
dropping empty tokens. -/
def pySplit (s : String) : List String :=
  splitWsAux s.toList []

/-- Numeric value of a digit string. -/
def digitsVal (l : List Char) : ℕ :=
  l.foldl (fun acc c => 10 * acc + (c.toNat - 48)) 0

/-- Parse an unsigned decimal literal (digits, optionally a dot and digits). -/
def parseDecCore (l : List Char) : Option ℚ :=
  let ip := l.takeWhile Char.isDigit
  let rest := l.dropWhile Char.isDigit
  match rest with
  | [] => if ip = [] then none else some (digitsVal ip : ℚ)
  | '.' :: fp =>
      if fp.all Char.isDigit ∧ ¬(ip = [] ∧ fp = []) then
        some ((digitsVal ip : ℚ) + (digitsVal fp : ℚ) / 10 ^ fp.length)
      else none
  | _ => none

/-- Model of Python float() on plain decimal literals (optional sign,
digits, optional fractional part).  Exponent forms are outside the model. -/
def parseDec (s : String) : Option ℚ :=
  match s.toList with
  | '-' :: rest => (parseDecCore rest).map (fun q => -q)
  | '+' :: rest => parseDecCore rest
  | l => parseDecCore l

/-- Unsigned part of Python int(): a nonempty all-digit string. -/
def pyIntCore (l : List Char) : Option ℤ :=
  if l ≠ [] ∧ l.all Char.isDigit then some (digitsVal l : ℤ) else none

/-- Model of Python int() on strings: surrounding whitespace is ignored,
an optional sign precedes a nonempty digit string. -/
def pyInt (s : String) : Option ℤ :=
  let t := ((s.toList.dropWhile Char.isWhitespace).reverse.dropWhile
    Char.isWhitespace).reverse
  match t with
  | '-' :: rest => (pyIntCore rest).map (fun n => -n)
  | '+' :: rest => pyIntCore rest
  | l => pyIntCore l

/-- Model of Python round(q, 5): round to the nearest multiple of 10 ^ (-5). -/
def round5 (q : ℚ) : ℚ :=
  ((round (q * 100000) : ℤ) : ℚ) / 100000

/-- Drop trailing zero characters but keep at least one digit. -/
def trimTrailingZeros (l : List Char) : List Char :=
  match l.reverse.dropWhile (fun c => c == '0') with
  | [] => [ '0' ]
  | r => r.reverse

/-- Model of Python str() on the float round(q, 5): sign, integer part, a dot,
then the fractional digits with trailing zeros trimmed (at least one digit). -/
def pyStr5 (q : ℚ) : String :=
  let m : ℤ := round (q * 100000)
  let n : ℕ := m.natAbs
  let fracRaw := toString (n % 100000)
  let frac : String :=
    ⟨trimTrailingZeros (List.replicate (5 - fracRaw.length) '0' ++ fracRaw.toList)⟩
  (if m < 0 then "-" else "") ++ toString (n / 100000) ++ "." ++ frac

/-- Model of Python str.rjust: left-pad with spaces to the given width. -/
def rjust (width : Nat) (s : String) : String :=
  (⟨List.replicate (width - s.length) ' '⟩ : String) ++ s

/-- Render a list of box values the way stretch_boxsize does: each value as a
width-10 right-justified field, concatenated, with a trailing newline. -/
def renderLine (dims : List ℚ) : String :=
  String.join (dims.map (fun q => rjust 10 (pyStr5 q))) ++ "\n"

/-- The list comprehension inside stretch_boxsize: walk the whitespace tokens
left to right with their index n, convert each with float() (ValueError on
failure), look up scale at n (IndexError past the end), and collect
round(float(x) * scale n, 5). -/
def dimenions_list (scale : List ℚ) : ℕ → List String → Except PyErr (List ℚ)
  | _, [] => Except.ok []
  | n, t :: ts =>
    match parseDec t with
    | none => Except.error PyErr.valueError
    | some v =>
      match scale.get? n with
      | none => Except.error PyErr.indexError
      | some s =>
        match dimenions_list scale (n + 1) ts with
        | Except.error e => Except.error e
        | Except.ok r => Except.ok (round5 (v * s) :: r)

/-- The value lists produced by stretch_boxsize before rendering; the
per-axis scale list is exactly the three entries scale_factor, scale_factor, 1. -/
def stretch_boxsize_dims (boxsize_line : String) (scale_factor : ℚ) :
    Except PyErr (List ℚ) :=
  dimenions_list [scale_factor, scale_factor, 1] 0 (pySplit boxsize_line)

/-- Model of stretch_boxsize: scale the first two whitespace-separated fields
by scale_factor (third axis scale is 1), round each to 5 decimal places, and
render as right-justified width-10 fields terminated by a newline. -/
def stretch_boxsize (boxsize_line : String) (scale_factor : ℚ) :
    Except PyErr String :=
  match stretch_boxsize_dims boxsize_line scale_factor with
  | Except.error e => Except.error e
  | Except.ok dims => Except.ok (renderLine dims)

/-- Model of AtomGroup.center(None): the unweighted mean of the positions. -/
def centerOfGeometry (ps : List Vec3) : Vec3 :=
  ⟨(ps.map Vec3.x).sum / (ps.length : ℚ),
   (ps.map Vec3.y).sum / (ps.length : ℚ),
   (ps.map Vec3.z).sum / (ps.length : ℚ)⟩

/-- The per-atom position update performed inside stretch_relative's loop:
rescale the x and y coordinates about the fixed centre, keep z. -/
def stretchPos (center : Vec3) (scale_factor : ℚ) (p : Vec3) : Vec3 :=
  ⟨center.x + scale_factor * (p.x - center.x),
   center.y + scale_factor * (p.y - center.y),
   p.z⟩

/-- Model of stretch_relative: the anchor group's centre of geometry is taken
once, then every atom of the moving group is updated in place by stretchPos.
The function is pure on positions: it performs no file input or output, and
the caller observes only the mutated position list. -/
def stretch_relative (to_strech anchor : List Vec3) (scale_factor : ℚ) :
    List Vec3 :=
  to_strech.map (stretchPos (centerOfGeometry anchor) scale_factor)

/-- Model of edit_last_line on the line list read by f.readlines(): assigning
data[-1] replaces the entry at index length - 1; on an empty file Python
raises IndexError, modelled as none. -/
def edit_last_line (data : List String) (new_last_line : String) :
    Option (List String) :=
  if data.length = 0 then none
  else some (data.set (data.length - 1) new_last_line)

/-- Does sep occur as a contiguous substring?  Models Python's in operator
on strings. -/
def containsSub (sep : List Char) : List Char → Bool
  | [] => sep.isPrefixOf []
  | c :: cs => sep.isPrefixOf (c :: cs) || containsSub sep cs

/-- The suffix strictly after the rightmost occurrence of sep, if sep occurs. -/
def afterLastSub (sep : List Char) : List Char → Option (List Char)
  | [] => if sep.isPrefixOf [] then some [] else none
  | c :: cs =>
    match afterLastSub sep cs with
    | some r => some r
    | none =>
      if sep.isPrefixOf (c :: cs) then some ((c :: cs).drop sep.length)
      else none

/-- Model of Python line.split(sep) indexed at -1 for a separator with no
self-overlap (true of the markers used here): the text after the last
occurrence of sep, or the whole text if sep does not occur. -/
def splitTail (sep l : List Char) : List Char :=
  match afterLastSub sep l with
  | some r => r
  | none => l

/-- The overlap marker minimize searches for in the minimization log. -/
def overlapMarker : String := "inf on atom "

/-- The generic error marker minimize searches for in the minimization log. -/
def errorMarker : String := "ERROR"

/-- Model of the log-scanning loop of minimize, over the list of log lines:
at the first line containing the overlap marker, return the int() of the text
after the marker (ok (some id); a ValueError if that text is not an integer);
otherwise at the first line containing ERROR raise the fatal ValueError; if
no line matches, return None (ok none). -/
def minimize_scan : List String → Except PyErr (Option ℤ)
  | [] => Except.ok none
  | line :: rest =>
    if containsSub overlapMarker.toList line.toList then
      match pyInt ⟨splitTail overlapMarker.toList line.toList⟩ with
      | some k => Except.ok (some k)
      | none => Except.error PyErr.valueError
    else if containsSub errorMarker.toList line.toList then
      Except.error PyErr.fatalMinError
    else
      minimize_scan rest

/-- The observable requests generate_posre makes of the external engine:
the input script handed to make_ndx (if invoked), the input handed to
genrestr, and whether the transient temp.ndx file was removed afterwards. -/
structure PosreCall where
  make_ndx_input : Option (List String)
  genrestr_input : List String
  temp_ndx_removed : Bool
  deriving DecidableEq, Repr

/-- Model of generate_posre: resolve the group handle by position in the
index list (ValueError if absent, like list.index).  With a nonempty
exclude_res, build the residue-selector union joined by the or-separator,
create it (handle = list length) and the refined difference group
(handle = list length + 1) via make_ndx, run genrestr on the refined handle,
and delete temp.ndx; otherwise run genrestr directly on the group handle. -/
def generate_posre (current_index_list : List String) (group : String)
    (exclude_res : List ℤ) : Except PyErr PosreCall :=
  match current_index_list.findIdx? (fun g => g == group) with
  | none => Except.error PyErr.valueError
  | some group_index =>
    if 0 < exclude_res.length then
      Except.ok
        ⟨some [String.intercalate " | " (exclude_res.map (fun res => "r " ++ toString res)),
               "!" ++ toString current_index_list.length ++ " & " ++ toString group_index,
               "q"],
         [toString (current_index_list.length + 1)],
         true⟩
    else
      Except.ok ⟨none, [toString group_index], false⟩

/-- Model of the per-step compression ratio computed by embed_in_lipids:
np.power(end_scale / starting_scale, 1 / steps), idealised over the reals. -/
noncomputable def stepwise_compression (starting_scale end_scale : ℝ)
    (steps : ℕ) : ℝ :=
  (end_scale / starting_scale) ^ ((1 : ℝ) / (steps : ℝ))

/-- Model of os.path.join for a folder and a relative file name: a separator
is inserted unless the folder is empty or already ends with one. -/
def pyJoin (folder name : String) : String :=
  if folder = "" then name
  else if folder.toList.getLast? = some '/' then folder ++ name
  else folder ++ "/" ++ name

/-- An atom of the combined snapshot: a position plus whether the atom
matches the lipid_selection string (select_atoms results are modelled by
this flag; the protein subset is its complement). -/
structure Atom where
  pos : Vec3
  lipid : Bool
  deriving DecidableEq, Repr

/-- A coordinate file: atom list plus the dimensions held by the analysis
library for that file (the six mda dimension entries, in tenths of the
box-line unit followed by three angles). -/
structure GroFile where
  atoms : List Atom
  dims : List ℚ
  deriving DecidableEq, Repr

/-- The file system: an association list from paths to coordinate files;
a new write shadows older entries for the same path. -/
abbrev FS : Type := List (String × GroFile)

/-- Read the file at a path (first, i.e. most recent, entry wins). -/
def fsRead : FS → String → Option GroFile
  | [], _ => none
  | (q, g) :: fs, p => if p = q then some g else fsRead fs p

/-- Write (or overwrite) the file at a path. -/
def fsWrite (fs : FS) (p : String) (g : GroFile) : FS :=
  (p, g) :: fs

/-- Model of shutil.copyfile: read the source, write its content to the
destination; a missing source raises. -/
def copyfile (fs : FS) (src dst : String) : Except (PyErr × FS) FS :=
  match fsRead fs src with
  | none => Except.error (PyErr.fileNotFound, fs)
  | some g => Except.ok (fsWrite fs dst g)

/-- Model of change_boxsize: parse the box line with float() on each
whitespace token and convert nm to tenths (times 10), reopen the file, set
its six dimensions to the three parsed values plus three right angles, and
rewrite it with unchanged atoms. -/
def change_boxsize (fs : FS) (file_to_process boxsize_line : String) :
    Except (PyErr × FS) FS :=
  match (pySplit boxsize_line).mapM parseDec with
  | none => Except.error (PyErr.valueError, fs)
  | some vals =>
    match fsRead fs file_to_process with
    | none => Except.error (PyErr.fileNotFound, fs)
    | some g =>
      if vals.length = 3 then
        Except.ok (fsWrite fs file_to_process ⟨g.atoms, vals.map (fun v => v * 10) ++ [90, 90, 90]⟩)
      else Except.error (PyErr.valueError, fs)

/-- One outcome of a minimize invocation, as classified from its log by the
minimization driver: success additionally carries the minimized structure
that the engine leaves behind as the step's output file. -/
inductive MinOutcome where
  | success (out : GroFile)
  | atomOverlap (k : ℕ)
  | fatalError
  deriving DecidableEq, Repr

/-- Name of the raw (pre-minimization) artifact of step n. -/
def rawName (n : ℕ) : String := "embed_raw" ++ toString n ++ ".gro"

/-- Name of the minimized artifact of step n. -/
def emName (n : ℕ) : String := "embed_" ++ toString n ++ ".gro"

/-- Model of the minimization retry loop of embed_in_lipids for step n
(the while loop over return_code).  Each iteration refreshes the working
topology from the template, invokes minimize (consuming the next scripted
driver outcome), and on an atom-overlap outcome selects the offending atom
by bynum id in the in-memory combined snapshot, shifts its position by the
unit x offset, writes the snapshot to folder_path concatenated directly with
the raw artifact name (the source concatenates strings here instead of using
os.path.join), re-applies the box line at the joined raw artifact path, and
loops.  A fatal outcome propagates.  Returns the file system, the final
in-memory snapshot, the unconsumed driver outcomes, and the ids perturbed,
in order. -/
def retryLoop (folder_path : String) (n : ℕ) (boxsize : String) :
    GroFile → FS → List MinOutcome →
    Except (PyErr × FS) (FS × GroFile × List MinOutcome × List ℕ)
  | _, fs, [] => Except.error (PyErr.driverExhausted, fs)
  | combined_universe, fs, o :: rest =>
    match copyfile fs (pyJoin folder_path "template.top") (pyJoin folder_path "topol.top") with
    | Except.error e => Except.error e
    | Except.ok fs1 =>
      match o with
      | MinOutcome.fatalError => Except.error (PyErr.fatalMinError, fs1)
      | MinOutcome.success out =>
        Except.ok (fsWrite fs1 (pyJoin folder_path (emName n)) out, combined_universe, rest, [])
      | MinOutcome.atomOverlap k =>
        if hk : 1 ≤ k ∧ k - 1 < combined_universe.atoms.length then
          let a := combined_universe.atoms.get ⟨k - 1, hk.2⟩
          let combined' : GroFile :=
            ⟨combined_universe.atoms.set (k - 1) ⟨⟨a.pos.x + 1, a.pos.y, a.pos.z⟩, a.lipid⟩,
             combined_universe.dims⟩
          let fs2 := fsWrite fs1 (folder_path ++ rawName n) combined'
          match change_boxsize fs2 (pyJoin folder_path (rawName n)) boxsize with
          | Except.error e => Except.error e
          | Except.ok fs3 =>
            match retryLoop folder_path n boxsize combined' fs3 rest with
            | Except.error e => Except.error e
            | Except.ok (fs', u', rest', ids) => Except.ok (fs', u', rest', k :: ids)
        else Except.error (PyErr.indexError, fs1)

/-- Model of one iteration of the compression loop of embed_in_lipids
(step n): reload the combined snapshot from step n-1's artifact, split it by
lipid_selection, stretch the lipid subset about the protein subset's centre
by the stepwise ratio, scale the running box line, write the raw artifact
and apply the box line to it, then run the minimization retry loop.
Returns the file system, the scaled box line, the remaining driver outcomes,
and the perturbed atom ids. -/
def embedStep (folder_path : String) (ratio : ℚ) (n : ℕ) (fs : FS)
    (boxsize : String) (driver : List MinOutcome) :
    Except (PyErr × FS) (FS × String × List MinOutcome × List ℕ) :=
  match fsRead fs (pyJoin folder_path (emName (n - 1))) with
  | none => Except.error (PyErr.fileNotFound, fs)
  | some combined_universe =>
    let protein := (combined_universe.atoms.filter (fun a => !a.lipid)).map Atom.pos
    let c := centerOfGeometry protein
    let combined' : GroFile :=
      ⟨combined_universe.atoms.map (fun a =>
          if a.lipid then ⟨stretchPos c ratio a.pos, a.lipid⟩ else a),
       combined_universe.dims⟩
    match stretch_boxsize boxsize ratio with
    | Except.error e => Except.error (e, fs)
    | Except.ok boxsize' =>
      let fs1 := fsWrite fs (pyJoin folder_path (rawName n)) combined'
      match change_boxsize fs1 (pyJoin folder_path (rawName n)) boxsize' with
      | Except.error e => Except.error e
      | Except.ok fs2 =>
        match retryLoop folder_path n boxsize' combined' fs2 driver with
        | Except.error e => Except.error e
        | Except.ok (fs3, _, rest, ids) => Except.ok (fs3, boxsize', rest, ids)

/-- The for loop of embed_in_lipids: run remaining many steps starting at
step index n, threading file system, box line and driver outcomes. -/
def embedSteps (folder_path : String) (ratio : ℚ) :
    ℕ → ℕ → FS → String → List MinOutcome →
    Except (PyErr × FS) (FS × String × List MinOutcome)
  | 0, _, fs, boxsize, driver => Except.ok (fs, boxsize, driver)
  | remaining + 1, n, fs, boxsize, driver =>
    match embedStep folder_path ratio n fs boxsize driver with
    | Except.error e => Except.error e
    | Except.ok (fs', boxsize', driver', _) =>
      embedSteps folder_path ratio remaining (n + 1) fs' boxsize' driver'

/-- Model of embed_in_lipids.  The per-step ratio is passed as the parameter
ratio; the source computes it as stepwise_compression of starting_scale,
end_scale and steps (an irrational real in general, hence kept abstract in
this executable model).  Init: load protein and lipid files, stretch every
lipid atom about the protein centre by starting_scale, scale the box line,
merge and write the step-0 artifact, and apply the box line to it.  Then run
the per-step loop for steps steps, and finally copy the last minimized
artifact over protein_path. -/
def embed_in_lipids (protein_path lipid_path folder_path boxsize_line : String)
    (starting_scale ratio : ℚ) (steps : ℕ) (driver : List MinOutcome)
    (fs : FS) : Except (PyErr × FS) FS :=
  match fsRead fs protein_path, fsRead fs lipid_path with
  | some protein_universe, some lipid_universe =>
    let c := centerOfGeometry (protein_universe.atoms.map Atom.pos)
    let lipidAtoms := lipid_universe.atoms.map (fun a =>
      ⟨stretchPos c starting_scale a.pos, a.lipid⟩)
    match stretch_boxsize boxsize_line starting_scale with
    | Except.error e => Except.error (e, fs)
    | Except.ok boxsize0 =>
      let combined : GroFile := ⟨protein_universe.atoms ++ lipidAtoms, protein_universe.dims⟩
      let fs1 := fsWrite fs (pyJoin folder_path (emName 0)) combined
      match change_boxsize fs1 (pyJoin folder_path (emName 0)) boxsize0 with
      | Except.error e => Except.error e
      | Except.ok fs2 =>
        match embedSteps folder_path ratio steps 1 fs2 boxsize0 driver with
        | Except.error e => Except.error e
        | Except.ok (fs3, _, _) =>
          copyfile fs3 (pyJoin folder_path (emName steps)) protein_path
  | _, _ => Except.error (PyErr.fileNotFound, fs)

/-- Five atoms on the x axis: the combined snapshot of the overlap scenario. -/
def overlapAtoms : List Atom :=
  [⟨⟨0, 0, 0⟩, true⟩, ⟨⟨1, 0, 0⟩, true⟩, ⟨⟨2, 0, 0⟩, true⟩,
   ⟨⟨3, 0, 0⟩, true⟩, ⟨⟨4, 0, 0⟩, true⟩]

/-- The same five atoms after the retry loop perturbs atom id 5 (the fifth
atom, 1-based) by the unit x offset. -/
def overlapAtomsPerturbed : List Atom :=
  [⟨⟨0, 0, 0⟩, true⟩, ⟨⟨1, 0, 0⟩, true⟩, ⟨⟨2, 0, 0⟩, true⟩,
   ⟨⟨3, 0, 0⟩, true⟩, ⟨⟨5, 0, 0⟩, true⟩]

/-- The in-memory combined snapshot at the top of step 1 of the scenario. -/
def overlapStart : GroFile := ⟨overlapAtoms, [2, 2, 2, 90, 90, 90]⟩

/-- The raw step-1 artifact after the box line 1 1 1 is re-applied to it. -/
def overlapRawReboxed : GroFile := ⟨overlapAtoms, [10, 10, 10, 90, 90, 90]⟩

/-- The perturbed snapshot (still carrying the in-memory dimensions). -/
def overlapPerturbed : GroFile := ⟨overlapAtomsPerturbed, [2, 2, 2, 90, 90, 90]⟩

/-- A template topology stand-in for the scenario. -/
def overlapTemplate : GroFile := ⟨[], []⟩

/-- The minimized structure the engine produces on the successful retry. -/
def overlapMinimized : GroFile := ⟨overlapAtoms, [1, 1, 1, 90, 90, 90]⟩

/-- On-disk state at the start of the scenario's retry loop: the raw step-1
artifact and the template topology, under folder path wd. -/
def overlapStartFS : FS :=
  [( "wd/embed_raw1.gro", overlapStart), ( "wd/template.top", overlapTemplate)]

/-- Extensionality for Vec3: componentwise equality of positions. -/
theorem Vec3.ext' (a b : Vec3) (hx : a.x = b.x) (hy : a.y = b.y)
    (hz : a.z = b.z) : a = b := by
  cases a; cases b; simp_all

/-- Replacing the entry at index length - 1 of a nonempty list is the same as
dropping the last entry and appending the new one. -/
theorem set_last_eq_dropLast_append {α : Type} (l : List α) (a : α)
    (h : l ≠ []) : l.set (l.length - 1) a = l.dropLast ++ [a] := by
  induction l with
  | nil => exact absurd rfl h
  | cons x xs ih =>
    cases hxs : xs with
    | nil => simp
    | cons y ys =>
      subst hxs
      have h1 : (x :: y :: ys).length - 1 = (y :: ys).length - 1 + 1 := by
        simp
      rw [h1, List.set]
      rw [ih (by simp)]
      simp

/-- C4: for positive starting and end scales and at least one step, the
per-step ratio computed by embed_in_lipids satisfies
starting_scale * ratio ^ steps = end_scale exactly over the reals, so the
schedule is a geometric progression from starting_scale to end_scale. -/
theorem C4_geometric_schedule_exact (starting_scale end_scale : ℝ)
    (steps : ℕ) (hs : 0 < starting_scale) (he : 0 < end_scale)
    (hsteps : 1 ≤ steps) :
    starting_scale * stepwise_compression starting_scale end_scale steps ^ steps
      = end_scale := by
  have h0 : (steps : ℝ) ≠ 0 := Nat.cast_ne_zero.mpr (by omega)
  have hx : (0 : ℝ) < end_scale / starting_scale := div_pos he hs
  rw [stepwise_compression,
    ← Real.rpow_natCast ((end_scale / starting_scale) ^ ((1 : ℝ) / (steps : ℝ))) steps,
    ← Real.rpow_mul hx.le, one_div, inv_mul_cancel₀ h0, Real.rpow_one,
    mul_comm, div_mul_cancel₀ _ (ne_of_gt hs)]

/-- Concrete instance of C4 at starting scale 2, end scale 1, two steps. -/
theorem C4_geometric_schedule_exact_witness :
    (2 : ℝ) * stepwise_compression 2 1 2 ^ 2 = 1 :=
  C4_geometric_schedule_exact 2 1 2 (by norm_num) (by norm_num) (by norm_num)

/-- C5: stretch_relative leaves the atom count unchanged and maps every
moving atom to the claimed coordinates: x and y are rescaled by
scale_factor about the unweighted mean of the anchor positions, while z is
untouched.  The modelled function is pure: it performs no file input or
output and only the position list is affected. -/
theorem C5_stretch_relative_pointwise (moving anchor : List Vec3) (s : ℚ)
    (hanchor : anchor ≠ []) :
    (stretch_relative moving anchor s).length = moving.length ∧
    ∀ i (hi : i < moving.length)
        (hi2 : i < (stretch_relative moving anchor s).length),
      ((stretch_relative moving anchor s).get ⟨i, hi2⟩).x
          = (anchor.map Vec3.x).sum / (anchor.length : ℚ)
            + s * ((moving.get ⟨i, hi⟩).x
                - (anchor.map Vec3.x).sum / (anchor.length : ℚ)) ∧
      ((stretch_relative moving anchor s).get ⟨i, hi2⟩).y
          = (anchor.map Vec3.y).sum / (anchor.length : ℚ)
            + s * ((moving.get ⟨i, hi⟩).y
                - (anchor.map Vec3.y).sum / (anchor.length : ℚ)) ∧
      ((stretch_relative moving anchor s).get ⟨i, hi2⟩).z
          = (moving.get ⟨i, hi⟩).z := by
  constructor
  · simp [stretch_relative]
  · intro i hi hi2
    simp [stretch_relative, stretchPos, centerOfGeometry, List.get_map]

/-- Concrete instance of C5 on a two-atom anchor and one moving atom. -/
theorem C5_stretch_relative_pointwise_witness :
    ([⟨0, 0, 0⟩, ⟨2, 2, 2⟩] : List Vec3) ≠ [] ∧
    (stretch_relative [⟨4, 6, 8⟩] [⟨0, 0, 0⟩, ⟨2, 2, 2⟩] 2).length = 1 :=
  ⟨by decide,
    (C5_stretch_relative_pointwise [⟨4, 6, 8⟩] [⟨0, 0, 0⟩, ⟨2, 2, 2⟩] 2
      (by decide)).1.trans (by decide)⟩

/-- C7: stretch_relative with scale 1 is the identity on positions;
applying scale s and then 1 / s about the same anchor restores the moving
positions exactly in this rational model (up to rounding in the float
implementation); and no scale factor ever modifies any z coordinate. -/
theorem C7_stretch_relative_algebra (moving anchor : List Vec3) (s : ℚ)
    (hanchor : anchor ≠ []) (hs : s ≠ 0) :
    stretch_relative moving anchor 1 = moving ∧
    stretch_relative (stretch_relative moving anchor s) anchor (1 / s) = moving ∧
    ∀ t : ℚ, (stretch_relative moving anchor t).map Vec3.z = moving.map Vec3.z := by
  refine ⟨?_, ?_, ?_⟩
  · have h : stretchPos (centerOfGeometry anchor) 1 = id := by
      funext p
      apply Vec3.ext' <;> simp [stretchPos]
    rw [stretch_relative, h, List.map_id]
  · have h : stretchPos (centerOfGeometry anchor) (1 / s) ∘
        stretchPos (centerOfGeometry anchor) s = id := by
      funext p
      apply Vec3.ext' <;> simp only [stretchPos, Function.comp, id] <;> field_simp
    rw [stretch_relative, stretch_relative, List.map_map, h, List.map_id]
  · intro t
    simp [stretch_relative, List.map_map, Function.comp, stretchPos]

/-- Concrete instance of C7: identity at scale 1 and inversion at 2 then 1/2. -/
theorem C7_stretch_relative_algebra_witness :
    stretch_relative [⟨3, 4, 5⟩] [⟨1, 1, 1⟩] 1 = [⟨3, 4, 5⟩] ∧
    stretch_relative (stretch_relative [⟨3, 4, 5⟩] [⟨1, 1, 1⟩] 2) [⟨1, 1, 1⟩] (1 / 2)
      = [⟨3, 4, 5⟩] := by
  have h := C7_stretch_relative_algebra [⟨3, 4, 5⟩] [⟨1, 1, 1⟩] 2 (by decide) (by decide)
  exact ⟨h.1, h.2.1⟩

/-- C9: on a nonempty line list, edit_last_line replaces exactly the last
line and keeps every preceding line at its original index, preserving the
line count. -/
theorem C9_edit_last_line_frame (data : List String) (new_last_line : String)
    (h : data ≠ []) :
    edit_last_line data new_last_line
        = some (data.dropLast ++ [new_last_line]) ∧
    (data.dropLast ++ [new_last_line]).length = data.length ∧
    (∀ i, i < data.length - 1 →
      (data.dropLast ++ [new_last_line]).get? i = data.get? i) ∧
    (data.dropLast ++ [new_last_line]).getLast? = some new_last_line := by
  refine ⟨?_, ?_, ?_, ?_⟩
  · unfold edit_last_line
    rw [if_neg (by simpa using h), set_last_eq_dropLast_append data new_last_line h]
  · have hp := List.length_pos.mpr h
    simp [List.length_dropLast]
    omega
  · intro i hi
    have hlen : i < data.dropLast.length := by
      simpa [List.length_dropLast] using hi
    rw [List.get?_append hlen, List.dropLast_eq_take, List.get?_take (by omega)]
  · exact List.getLast?_concat _

/-- Concrete instance of C9 on a two-line file. -/
theorem C9_edit_last_line_frame_witness :
    edit_last_line [ "a\n", "b\n" ] "c\n" = some [ "a\n", "c\n" ] :=
  (C9_edit_last_line_frame [ "a\n", "b\n" ] "c\n" (by decide)).1.trans (by decide)

/-- The rounding error of round5 is at most half of the last kept decimal. -/
theorem round5_approx (q : ℚ) : |round5 q - q| ≤ 1 / 200000 := by
  have h : |q * 100000 - round (q * 100000)| ≤ 1 / 2 := abs_sub_round (q * 100000)
  have h2 : round5 q - q
      = -((q * 100000 - ((round (q * 100000) : ℤ) : ℚ)) / 100000) := by
    rw [round5]; ring
  rw [h2, abs_neg, abs_div, show |(100000 : ℚ)| = 100000 by norm_num,
    div_le_iff (by norm_num)]
  calc |q * 100000 - ((round (q * 100000) : ℤ) : ℚ)| ≤ 1 / 2 := h
    _ ≤ 1 / 200000 * 100000 := by norm_num

/-- minimize_scan skips any prefix of lines carrying neither marker. -/
theorem minimize_scan_skip (pre rest : List String)
    (hpre : ∀ l ∈ pre, containsSub overlapMarker.toList l.toList = false ∧
        containsSub errorMarker.toList l.toList = false) :
    minimize_scan (pre ++ rest) = minimize_scan rest := by
  induction pre with
  | nil => rfl
  | cons l ls ih =>
    have h := hpre l (by simp)
    simp only [List.cons_append, minimize_scan, h.1, h.2]
    exact ih (fun x hx => hpre x (by simp [hx]))

/-- C3: minimize scans the log lines in file order and decides at the first
line containing a marker: a line with the overlap marker yields the integer
after the marker as an atom overlap (overlap takes precedence over ERROR on
the same line); otherwise a line with ERROR raises the fatal error; a log
with no marked line yields success (None). -/
theorem C3_minimize_log_classification (log : List String) :
    ((∀ l ∈ log, containsSub overlapMarker.toList l.toList = false ∧
        containsSub errorMarker.toList l.toList = false) →
      minimize_scan log = Except.ok none) ∧
    (∀ pre line post, log = pre ++ line :: post →
      (∀ l ∈ pre, containsSub overlapMarker.toList l.toList = false ∧
          containsSub errorMarker.toList l.toList = false) →
      (containsSub overlapMarker.toList line.toList = true →
        minimize_scan log =
          match pyInt ⟨splitTail overlapMarker.toList line.toList⟩ with
          | some k => Except.ok (some k)
          | none => Except.error PyErr.valueError) ∧
      (containsSub overlapMarker.toList line.toList = false →
        containsSub errorMarker.toList line.toList = true →
        minimize_scan log = Except.error PyErr.fatalMinError)) := by
  constructor
  · intro hall
    induction log with
    | nil => rfl
    | cons l ls ih =>
      have h := hall l (by simp)
      simp only [minimize_scan, h.1, h.2]
      simp only [Bool.false_eq_true, if_false]
      exact ih (fun x hx => hall x (by simp [hx]))
  · intro pre line post hlog hpre
    subst hlog
    rw [minimize_scan_skip pre _ hpre]
    constructor
    · intro hov
      simp only [minimize_scan]
      rw [if_pos hov]
    · intro hnov herr
      simp only [minimize_scan]
      rw [if_neg (fun hc => Bool.noConfusion (hnov.symm.trans hc)), if_pos herr]

/-- Concrete instance of C3: an untagged line, then an overlap line, then an
ERROR line; the first marked line (the overlap) decides. -/
theorem C3_minimize_log_classification_witness :
    minimize_scan [ "step 1\n", "Fatal error: inf on atom 42\n", "ERROR: bad\n" ]
      = Except.ok (some 42) := by
  have h := ((C3_minimize_log_classification
      ([ "step 1\n" ] ++ "Fatal error: inf on atom 42\n" :: [ "ERROR: bad\n" ])).2
      [ "step 1\n" ] "Fatal error: inf on atom 42\n" [ "ERROR: bad\n" ]
      rfl (by decide)).1 (by decide)
  exact h.trans (by decide)

/-- C8: with a nonempty exclusion list, generate_posre builds the residue
union joined by the or-separator, refines the named group by set-difference
against it, runs restraint generation on handle length + 1 (the refined
group), and removes the transient index file; with an empty exclusion list
it runs restraint generation directly on the group's handle. -/
theorem C8_generate_posre_requests (current_index_list : List String)
    (group : String) (exclude_res : List ℤ) (group_index : ℕ)
    (hg : current_index_list.findIdx? (fun g => g == group) = some group_index) :
    (exclude_res ≠ [] →
      generate_posre current_index_list group exclude_res = Except.ok
        ⟨some [String.intercalate " | "
                 (exclude_res.map (fun res => "r " ++ toString res)),
               "!" ++ toString current_index_list.length ++ " & "
                 ++ toString group_index,
               "q"],
         [toString (current_index_list.length + 1)], true⟩) ∧
    (exclude_res = [] →
      generate_posre current_index_list group exclude_res = Except.ok
        ⟨none, [toString group_index], false⟩) := by
  constructor
  · intro hne
    simp [generate_posre, hg, List.length_pos.mpr hne]
  · intro he
    subst he
    simp [generate_posre, hg]

/-- Concrete instance of C8 on a three-group index with two excluded residues. -/
theorem C8_generate_posre_requests_witness :
    generate_posre [ "System", "Protein", "SOL" ] "Protein" [3, 5] = Except.ok
      ⟨some [ "r 3 | r 5", "!3 & 1", "q" ], [ "4" ], true⟩ := by
  have h := (C8_generate_posre_requests [ "System", "Protein", "SOL" ] "Protein"
      [3, 5] 1 (by decide)).1 (by decide)
  rw [h]
  decide

/-- C6 counterexample: with factor 1 the third field 0.000001 is rounded to
5 decimal places and becomes 0, so the field after the second is not left
unchanged as claimed. -/
theorem C6_third_field_rounded_counterexample :
    stretch_boxsize "1 1 0.000001" 1
        = Except.ok "       1.0       1.0       0.0\n" ∧
    parseDec "0.000001" = some (1 / 1000000) ∧
    stretch_boxsize_dims "1 1 0.000001" 1 = Except.ok [1, 1, 0] ∧
    (0 : ℚ) ≠ 1 / 1000000 := by
  refine ⟨by decide, by decide, by decide, by decide⟩

/-- C6 (amended): for a positive factor and a three-field numeric box line,
stretch_boxsize multiplies the first two values by the factor and rounds
them to 5 decimal places, multiplies the third by 1 and likewise rounds it
to 5 decimal places (so the third is preserved only up to that rounding),
renders the three values in order as width-10 right-justified fields with a
trailing newline, and each output value is within half of 10^-5 of the
unrounded value. -/
theorem C6_box_scale_amended (boxsize_line t0 t1 t2 : String) (a b c f : ℚ)
    (hf : 0 < f) (hsplit : pySplit boxsize_line = [t0, t1, t2])
    (h0 : parseDec t0 = some a) (h1 : parseDec t1 = some b)
    (h2 : parseDec t2 = some c) :
    stretch_boxsize_dims boxsize_line f
        = Except.ok [round5 (a * f), round5 (b * f), round5 (c * 1)] ∧
    stretch_boxsize boxsize_line f
        = Except.ok (renderLine [round5 (a * f), round5 (b * f), round5 (c * 1)]) ∧
    |round5 (a * f) - a * f| ≤ 1 / 200000 ∧
    |round5 (b * f) - b * f| ≤ 1 / 200000 ∧
    |round5 (c * 1) - c| ≤ 1 / 200000 := by
  have hdims : stretch_boxsize_dims boxsize_line f
      = Except.ok [round5 (a * f), round5 (b * f), round5 (c * 1)] := by
    simp [stretch_boxsize_dims, hsplit, dimenions_list, h0, h1, h2, List.get?]
  refine ⟨hdims, ?_, round5_approx (a * f), round5_approx (b * f), ?_⟩
  · simp [stretch_boxsize, hdims]
  · simpa using round5_approx (c * 1)

/-- Concrete instance of the amended C6 at factor 2 on the line 2 3 7. -/
theorem C6_box_scale_amended_witness :
    stretch_boxsize_dims "2 3 7" 2 = Except.ok [4, 6, 7] := by
  have h := (C6_box_scale_amended "2 3 7" "2" "3" "7" 2 3 7 2 (by decide)
      (by decide) (by decide) (by decide) (by decide)).1
  rw [h]
  decide

/-- C10 counterexample: on a four-field line whose fourth field is not
numeric, float() fails before the scale list is indexed, so the call raises
ValueError, not IndexError as claimed. -/
theorem C10_nonnumeric_fourth_field_counterexample :
    stretch_boxsize "1 2 3 x" 1 = Except.error PyErr.valueError ∧
    PyErr.valueError ≠ PyErr.indexError := by
  refine ⟨by decide, by decide⟩

/-- C10 (amended): on any line of more than three whitespace-separated
fields whose first four fields are numeric, stretch_boxsize raises
IndexError (its per-axis scale list has exactly three entries), so only
three-field rectangular box lines are accepted; a non-numeric fourth field
instead raises ValueError from float(). -/
theorem C10_overlong_box_line_index_error (boxsize_line t0 t1 t2 t3 : String)
    (rest : List String) (v0 v1 v2 v3 f : ℚ)
    (hsplit : pySplit boxsize_line = t0 :: t1 :: t2 :: t3 :: rest)
    (h0 : parseDec t0 = some v0) (h1 : parseDec t1 = some v1)
    (h2 : parseDec t2 = some v2) (h3 : parseDec t3 = some v3) :
    stretch_boxsize boxsize_line f = Except.error PyErr.indexError := by
  have hdims : stretch_boxsize_dims boxsize_line f
      = Except.error PyErr.indexError := by
    simp [stretch_boxsize_dims, hsplit, dimenions_list, h0, h1, h2, h3, List.get?]
  simp [stretch_boxsize, hdims]

/-- Concrete instance of the amended C10 on the four-field line 1 2 3 4. -/
theorem C10_overlong_box_line_index_error_witness :
    stretch_boxsize "1 2 3 4" 1 = Except.error PyErr.indexError :=
  C10_overlong_box_line_index_error "1 2 3 4" "1" "2" "3" "4" [] 1 2 3 4 1
    (by decide) (by decide) (by decide) (by decide) (by decide)

/-- C1 (code bug): with folder path wd (no trailing separator) and a driver
reporting AtomOverlap(5) once and then Success, the step-1 retry loop does
select atom id 5 in the snapshot loaded at the top of the step, perturbs it
exactly once by the unit x offset (trace [5]) and invokes minimization
exactly twice (both scripted outcomes consumed, none left); but the
perturbed snapshot is written to the stray concatenated path
wdembed_raw1.gro, while the raw artifact wd/embed_raw1.gro that the second
minimization reads keeps the unperturbed coordinates and only has the box
line re-applied, so the raw step-n artifact is not re-written as the claim
(and the source's own retry comment) intends. -/
theorem C1_overlap_retry_writes_stray_path :
    retryLoop "wd" 1 "1 1 1" overlapStart overlapStartFS
        [MinOutcome.atomOverlap 5, MinOutcome.success overlapMinimized]
      = Except.ok
          ([( "wd/embed_1.gro", overlapMinimized),
            ( "wd/topol.top", overlapTemplate),
            ( "wd/embed_raw1.gro", overlapRawReboxed),
            ( "wdembed_raw1.gro", overlapPerturbed),
            ( "wd/topol.top", overlapTemplate),
            ( "wd/embed_raw1.gro", overlapStart),
            ( "wd/template.top", overlapTemplate)],
           overlapPerturbed, [], [5]) ∧
    (∀ fs' u rest ids,
      retryLoop "wd" 1 "1 1 1" overlapStart overlapStartFS
          [MinOutcome.atomOverlap 5, MinOutcome.success overlapMinimized]
        = Except.ok (fs', u, rest, ids) →
      fsRead fs' "wd/embed_raw1.gro" = some overlapRawReboxed ∧
      fsRead fs' "wdembed_raw1.gro" = some overlapPerturbed) ∧
    overlapRawReboxed.atoms = overlapStart.atoms ∧
    overlapStart.atoms ≠ overlapPerturbed.atoms := by
  refine ⟨by decide, ?_, by decide, by decide⟩
  intro fs' u rest ids h
  have hrun : retryLoop "wd" 1 "1 1 1" overlapStart overlapStartFS
      [MinOutcome.atomOverlap 5, MinOutcome.success overlapMinimized]
    = Except.ok
        ([( "wd/embed_1.gro", overlapMinimized),
          ( "wd/topol.top", overlapTemplate),
          ( "wd/embed_raw1.gro", overlapRawReboxed),
          ( "wdembed_raw1.gro", overlapPerturbed),
          ( "wd/topol.top", overlapTemplate),
          ( "wd/embed_raw1.gro", overlapStart),
          ( "wd/template.top", overlapTemplate)],
         overlapPerturbed, [], [5]) := by decide
  rw [hrun] at h
  obtain ⟨h1, -⟩ := Prod.mk.inj (Except.ok.inj h)
  subst h1
  exact ⟨by decide, by decide⟩

/-- The file system carried by a computation's result: the returned state on
success (through the given projection), or the state at raise time on error. -/
def carriedFS {α : Type} (f : α → FS) : Except (PyErr × FS) α → FS
  | Except.ok a => f a
  | Except.error e => e.2

/-- Reading a freshly written path returns the written file. -/
theorem fsRead_fsWrite_self (fs : FS) (q : String) (g : GroFile) :
    fsRead (fsWrite fs q g) q = some g := by
  simp [fsWrite, fsRead]

/-- Reading any other path is unaffected by a write. -/
theorem fsRead_fsWrite_ne (fs : FS) (p q : String) (g : GroFile) (h : p ≠ q) :
    fsRead (fsWrite fs q g) p = fsRead fs p := by
  simp [fsWrite, fsRead, h]

/-- A successful copyfile read its source and wrote it to the destination. -/
theorem copyfile_ok (fs fs' : FS) (src dst : String)
    (h : copyfile fs src dst = Except.ok fs') :
    ∃ g, fsRead fs src = some g ∧ fs' = fsWrite fs dst g := by
  unfold copyfile at h
  cases hr : fsRead fs src with
  | none => rw [hr] at h; exact absurd h (by simp)
  | some g => rw [hr] at h; exact ⟨g, rfl, (Except.ok.inj h).symm⟩

/-- A failed copyfile leaves the file system untouched. -/
theorem copyfile_error (fs fs' : FS) (src dst : String) (e : PyErr)
    (h : copyfile fs src dst = Except.error (e, fs')) : fs' = fs := by
  unfold copyfile at h
  cases hr : fsRead fs src with
  | none =>
    rw [hr] at h
    exact (Prod.mk.inj (Except.error.inj h)).2.symm
  | some g => rw [hr] at h; exact absurd h (by simp)

/-- A successful change_boxsize only rewrote the processed file in place. -/
theorem change_boxsize_ok (fs fs' : FS) (path line : String)
    (h : change_boxsize fs path line = Except.ok fs') :
    ∃ g, fs' = fsWrite fs path g := by
  unfold change_boxsize at h
  cases h1 : (pySplit line).mapM parseDec with
  | none => rw [h1] at h; exact absurd h (by simp)
  | some vals =>
    rw [h1] at h
    cases h2 : fsRead fs path with
    | none => rw [h2] at h; exact absurd h (by simp)
    | some g =>
      rw [h2] at h
      dsimp only at h
      by_cases h3 : vals.length = 3
      · rw [if_pos h3] at h
        exact ⟨_, (Except.ok.inj h).symm⟩
      · rw [if_neg h3] at h; exact absurd h (by simp)

/-- A failed change_boxsize leaves the file system untouched. -/
theorem change_boxsize_error (fs fs' : FS) (path line : String) (e : PyErr)
    (h : change_boxsize fs path line = Except.error (e, fs')) : fs' = fs := by
  unfold change_boxsize at h
  cases h1 : (pySplit line).mapM parseDec with
  | none =>
    rw [h1] at h
    exact (Prod.mk.inj (Except.error.inj h)).2.symm
  | some vals =>
    rw [h1] at h
    cases h2 : fsRead fs path with
    | none =>
      rw [h2] at h
      exact (Prod.mk.inj (Except.error.inj h)).2.symm
    | some g =>
      rw [h2] at h
      dsimp only at h
      by_cases h3 : vals.length = 3
      · rw [if_pos h3] at h; exact absurd h (by simp)
      · rw [if_neg h3] at h
        exact (Prod.mk.inj (Except.error.inj h)).2.symm

/-- The retry loop never touches a path that is not the working topology,
the stray concatenated raw path, the joined raw path, or the minimized
artifact of its step: reads of any other path are preserved, both on
success and at any raise point. -/
theorem retryLoop_reads_other (folder_path : String) (n : ℕ)
    (boxsize p : String)
    (htop : p ≠ pyJoin folder_path "topol.top")
    (hbug : p ≠ folder_path ++ rawName n)
    (hraw : p ≠ pyJoin folder_path (rawName n))
    (hem : p ≠ pyJoin folder_path (emName n)) :
    ∀ (driver : List MinOutcome) (combined : GroFile) (fs : FS)
      (r : Except (PyErr × FS) (FS × GroFile × List MinOutcome × List ℕ)),
      retryLoop folder_path n boxsize combined fs driver = r →
      fsRead (carriedFS (fun x => x.1) r) p = fsRead fs p := by
  intro driver
  induction driver with
  | nil =>
    intro combined fs r hr
    rw [← hr]
    simp [retryLoop, carriedFS]
  | cons o rest ih =>
    intro combined fs r hr
    rw [← hr]
    simp only [retryLoop]
    cases hc : copyfile fs (pyJoin folder_path "template.top")
        (pyJoin folder_path "topol.top") with
    | error ep =>
      have h0 : ep.2 = fs := copyfile_error _ _ _ _ _ (by rw [hc])
      simp [carriedFS, h0]
    | ok fs1 =>
      have hfs1 : fsRead fs1 p = fsRead fs p := by
        obtain ⟨g, -, hw⟩ := copyfile_ok _ _ _ _ hc
        rw [hw, fsRead_fsWrite_ne _ _ _ _ htop]
      cases o with
      | fatalError => simp [carriedFS, hfs1]
      | success out =>
        dsimp only
        simp only [carriedFS]
        rw [fsRead_fsWrite_ne _ _ _ _ hem, hfs1]
      | atomOverlap k =>
        dsimp only
        by_cases hk : 1 ≤ k ∧ k - 1 < combined.atoms.length
        · rw [dif_pos hk]
          split
          next e2 heq =>
            have h0 : e2.2 = fsWrite fs1 (folder_path ++ rawName n) _ :=
              change_boxsize_error _ _ _ _ _ (by rw [heq])
            simp only [carriedFS]
            rw [h0, fsRead_fsWrite_ne _ _ _ _ hbug, hfs1]
          next fs3 heq =>
            obtain ⟨g3, hw3⟩ := change_boxsize_ok _ _ _ _ heq
            have hfs3 : fsRead fs3 p = fsRead fs p := by
              rw [hw3, fsRead_fsWrite_ne _ _ _ _ hraw,
                fsRead_fsWrite_ne _ _ _ _ hbug, hfs1]
            split
            all_goals
              rename_i heq4
              have h5 := ih _ fs3 _ heq4
              simp only [carriedFS] at h5 ⊢
              exact h5.trans hfs3
        · rw [dif_neg hk]
          simp [carriedFS, hfs1]

/-- One compression step only touches its own artifacts (raw and minimized
files of step n, the stray concatenated raw path, the working topology):
reads of any other path are preserved on success and at any raise point. -/
theorem embedStep_reads_other (folder_path : String) (ratio : ℚ) (n : ℕ)
    (boxsize p : String) (fs : FS) (driver : List MinOutcome)
    (htop : p ≠ pyJoin folder_path "topol.top")
    (hbug : p ≠ folder_path ++ rawName n)
    (hraw : p ≠ pyJoin folder_path (rawName n))
    (hem : p ≠ pyJoin folder_path (emName n)) :
    ∀ r, embedStep folder_path ratio n fs boxsize driver = r →
      fsRead (carriedFS (fun x => x.1) r) p = fsRead fs p := by
  intro r hr
  rw [← hr]
  simp only [embedStep]
  cases hread : fsRead fs (pyJoin folder_path (emName (n - 1))) with
  | none => simp [carriedFS]
  | some combined =>
    dsimp only
    cases hsb : stretch_boxsize boxsize ratio with
    | error e => simp [carriedFS]
    | ok boxsize1 =>
      dsimp only
      split
      next e2 heq =>
        have h0 : e2.2 = fsWrite fs (pyJoin folder_path (rawName n)) _ :=
          change_boxsize_error _ _ _ _ _ (by rw [heq])
        simp only [carriedFS]
        rw [h0, fsRead_fsWrite_ne _ _ _ _ hraw]
      next fs2 heq =>
        obtain ⟨g2, hw2⟩ := change_boxsize_ok _ _ _ _ heq
        have hfs2 : fsRead fs2 p = fsRead fs p := by
          rw [hw2, fsRead_fsWrite_ne _ _ _ _ hraw, fsRead_fsWrite_ne _ _ _ _ hraw]
        split
        all_goals
          rename_i heq4
          have h5 := retryLoop_reads_other folder_path n boxsize1 p htop hbug
            hraw hem _ _ _ _ heq4
          simp only [carriedFS] at h5 ⊢
          exact h5.trans hfs2

/-- The step loop from step n for a given number of remaining steps only
touches the artifacts of steps n up to the last one and the working
topology: reads of any other path are preserved on success and at any
raise point. -/
theorem embedSteps_reads_other (folder_path : String) (ratio : ℚ) (p : String)
    (htop : p ≠ pyJoin folder_path "topol.top") :
    ∀ (remaining n : ℕ),
      (∀ m, n ≤ m → m < n + remaining →
        p ≠ folder_path ++ rawName m ∧ p ≠ pyJoin folder_path (rawName m) ∧
          p ≠ pyJoin folder_path (emName m)) →
      ∀ (fs : FS) (boxsize : String) (driver : List MinOutcome)
        (r : Except (PyErr × FS) (FS × String × List MinOutcome)),
        embedSteps folder_path ratio remaining n fs boxsize driver = r →
        fsRead (carriedFS (fun x => x.1) r) p = fsRead fs p := by
  intro remaining
  induction remaining with
  | zero =>
    intro n hm fs boxsize driver r hr
    rw [← hr]
    simp [embedSteps, carriedFS]
  | succ kk ih =>
    intro n hm fs boxsize driver r hr
    rw [← hr]
    simp only [embedSteps]
    split
    next e heq =>
      exact embedStep_reads_other folder_path ratio n boxsize p fs driver htop
        (hm n le_rfl (by omega)).1 (hm n le_rfl (by omega)).2.1
        (hm n le_rfl (by omega)).2.2 _ heq
    next fs1 b1 d1 ids1 heq =>
      have h1 := embedStep_reads_other folder_path ratio n boxsize p fs driver
        htop (hm n le_rfl (by omega)).1 (hm n le_rfl (by omega)).2.1
        (hm n le_rfl (by omega)).2.2 _ heq
      simp only [carriedFS] at h1
      exact (ih (n + 1) (fun m hm1 hm2 => hm m (by omega) (by omega))
        _ _ _ _ rfl).trans h1

/-- C2: embed_in_lipids overwrites the file at protein_path only after the
final step's minimization has succeeded.  Provided protein_path is none of
the controller's working artifacts (numbered step files, raw files, the
stray concatenated raw path, the working topology), then: on any raise the
protein file is unchanged on disk (no partial commit); on success the
protein path holds exactly the step-steps minimized artifact; and whenever
the driver reports a fatal (non-overlap) minimization error, the retry loop
raises immediately after the topology refresh, without retrying or
consuming further outcomes. -/
theorem C2_protein_path_committed_only_on_success
    (protein_path lipid_path folder_path boxsize_line : String)
    (starting_scale ratio : ℚ) (steps : ℕ) (driver : List MinOutcome)
    (fs : FS)
    (hem : ∀ m, m ≤ steps → protein_path ≠ pyJoin folder_path (emName m))
    (hraw : ∀ m, m ≤ steps → protein_path ≠ pyJoin folder_path (rawName m))
    (hbug : ∀ m, m ≤ steps → protein_path ≠ folder_path ++ rawName m)
    (htop : protein_path ≠ pyJoin folder_path "topol.top") :
    (∀ e fs', embed_in_lipids protein_path lipid_path folder_path boxsize_line
        starting_scale ratio steps driver fs = Except.error (e, fs') →
      fsRead fs' protein_path = fsRead fs protein_path) ∧
    (∀ fs', embed_in_lipids protein_path lipid_path folder_path boxsize_line
        starting_scale ratio steps driver fs = Except.ok fs' →
      ∃ g, fsRead fs' protein_path = some g ∧
        fsRead fs' (pyJoin folder_path (emName steps)) = some g) ∧
    (∀ (n : ℕ) (boxsize : String) (combined : GroFile) (fsx fsy : FS)
        (rest : List MinOutcome),
      copyfile fsx (pyJoin folder_path "template.top")
          (pyJoin folder_path "topol.top") = Except.ok fsy →
      retryLoop folder_path n boxsize combined fsx
          (MinOutcome.fatalError :: rest)
        = Except.error (PyErr.fatalMinError, fsy)) := by
  have hsteps : ∀ m, 1 ≤ m → m < 1 + steps →
      protein_path ≠ folder_path ++ rawName m ∧
      protein_path ≠ pyJoin folder_path (rawName m) ∧
      protein_path ≠ pyJoin folder_path (emName m) := by
    intro m hm1 hm2
    exact ⟨hbug m (by omega), hraw m (by omega), hem m (by omega)⟩
  refine ⟨?_, ?_, ?_⟩
  · intro e fs' hemb
    simp only [embed_in_lipids] at hemb
    cases hp : fsRead fs protein_path <;> rw [hp] at hemb <;>
      cases hl : fsRead fs lipid_path <;> rw [hl] at hemb <;>
      dsimp only at hemb
    case none.none | none.some | some.none =>
      exact (congrArg (fun z => fsRead z protein_path)
        (Prod.mk.inj (Except.error.inj hemb)).2.symm).trans hp
    case some.some prot lip =>
      split at hemb
      next e0 heqs =>
        exact (congrArg (fun z => fsRead z protein_path)
          (Prod.mk.inj (Except.error.inj hemb)).2.symm).trans hp
      next boxsize0 heqs =>
        split at hemb
        next e2 heq2 =>
          have h0 : e2.2 = fsWrite fs (pyJoin folder_path (emName 0)) _ :=
            change_boxsize_error _ _ _ _ _ (by rw [heq2])
          have h1 : fs' = e2.2 :=
            (Prod.mk.inj (Except.error.inj hemb)).2.symm
          rw [h1, h0, fsRead_fsWrite_ne _ _ _ _ (hem 0 (by omega))]
          exact hp
        next fs2 heq2 =>
          obtain ⟨g2, hw2⟩ := change_boxsize_ok _ _ _ _ heq2
          have hfs2 : fsRead fs2 protein_path = some prot := by
            rw [hw2, fsRead_fsWrite_ne _ _ _ _ (hem 0 (by omega)),
              fsRead_fsWrite_ne _ _ _ _ (hem 0 (by omega))]
            exact hp
          split at hemb
          next ep heq3 =>
            have h5 := embedSteps_reads_other folder_path ratio protein_path
              htop steps 1 hsteps fs2 boxsize0 driver _ heq3
            have h1 : fs' = ep.2 :=
              (Prod.mk.inj (Except.error.inj hemb)).2.symm
            simp only [carriedFS] at h5
            rw [h1]
            exact h5.trans hfs2
          next fs3 b3 d3 heq3 =>
            have h5 := embedSteps_reads_other folder_path ratio protein_path
              htop steps 1 hsteps fs2 boxsize0 driver _ heq3
            simp only [carriedFS] at h5
            have h1 : fs' = fs3 := copyfile_error _ _ _ _ _ hemb
            rw [h1]
            exact h5.trans hfs2
  · intro fs' hemb
    simp only [embed_in_lipids] at hemb
    cases hp : fsRead fs protein_path <;> rw [hp] at hemb <;>
      cases hl : fsRead fs lipid_path <;> rw [hl] at hemb <;>
      dsimp only at hemb
    case none.none | none.some | some.none => exact absurd hemb (by simp)
    case some.some prot lip =>
      split at hemb
      next e0 heqs => exact absurd hemb (by simp)
      next boxsize0 heqs =>
        split at hemb
        next e2 heq2 => exact absurd hemb (by simp)
        next fs2 heq2 =>
          split at hemb
          next ep heq3 => exact absurd hemb (by simp)
          next fs3 b3 d3 heq3 =>
            obtain ⟨g, hg, hw⟩ := copyfile_ok _ _ _ _ hemb
            refine ⟨g, ?_, ?_⟩
            · rw [hw, fsRead_fsWrite_self]
            · rw [hw, fsRead_fsWrite_ne _ _ _ _ (hem steps le_rfl).symm, hg]
  · intro n boxsize combined fsx fsy rest hcopy
    simp only [retryLoop]
    rw [hcopy]

/-- Concrete instance of C2's fatal-propagation conjunct: the retry loop
raises the fatal error immediately after the topology refresh. -/
theorem C2_protein_path_committed_only_on_success_witness :
    retryLoop "wd" 1 "1 1 1" (⟨[], []⟩ : GroFile)
        [( "wd/template.top", (⟨[], []⟩ : GroFile))] [MinOutcome.fatalError]
      = Except.error (PyErr.fatalMinError,
          [( "wd/topol.top", (⟨[], []⟩ : GroFile)),
           ( "wd/template.top", (⟨[], []⟩ : GroFile))]) := by
  have h := (C2_protein_path_committed_only_on_success "prot.gro" "lip.gro"
      "wd" "1 1 1" 1 1 1 [MinOutcome.fatalError] []
      (by decide) (by decide) (by decide) (by decide)).2.2
  exact h 1 "1 1 1" ⟨[], []⟩ [( "wd/template.top", ⟨[], []⟩)]
    [( "wd/topol.top", ⟨[], []⟩), ( "wd/template.top", ⟨[], []⟩)] []
    (by decide)
